import Mathlib

/-!
Verification development for the financepro user data manager
(`src/data_manager.py`), shallowly embedded in Lean 4.

Modelling notes, justified line-by-line against the source:

* `Expense` / `UserData` / `UserConfig` mirror the `msgspec.Struct`
  definitions (lines 15-43).  `amount : float` carries no arithmetic in the
  data manager, only value equality, so it is modelled as `Rat`; Python sets
  of strings are modelled as `Finset String` (content equality, which is what
  both Python `set.__eq__` and msgspec struct equality use).
* `load_data` (line 208) executes `self.combined_user_data =
  self.boot_user_data`, a reference assignment: from then on the two
  attributes alias one shared `UserData` object, and no later statement ever
  rebinds either attribute (`add_expense` and `revert_data` mutate the object
  in place).  The session state therefore carries a single `shared` cell read
  back by both `bootUserData` and `combinedUserData`.
* `revert_data` (lines 240-262) assigns *list comprehensions* to the
  `names` / `categories` / `tags` fields of the shared object, so after a
  revert those fields hold Python lists, no longer sets.  The dynamic type of
  an index field is captured by `PyColl` (`pset` = Python set, `plist` =
  Python list); `.add` on a list raises `AttributeError` and `set - list`
  raises `TypeError`, exactly as in CPython.
* `new_user_data` is always a freshly constructed `UserData()` (constructor
  line 96, save line 228, revert line 265) and is only ever mutated with
  `list.append`, `set.add`, `set.update`, so its index fields remain sets;
  it is modelled with the set-typed record `UserDataS`.
* `add_expense` (lines 267-288) can raise: `set(expense.tags)` raises
  `TypeError` when `tags is None`, and post-revert list-typed index fields
  raise as described above.  The embedding returns the partially mutated
  state together with `Option PyError`, mutating exactly as far as the Python
  statement order does before the raise.
* `save_data` (lines 218-234) takes no decision and returns `None`; the two
  file writes are modelled with injected success booleans, a failed write
  raising `PersistenceError`-like `osError` with the remaining statements
  skipped.  `get_user_data_size` reads actual on-disk file sizes (an
  environment input), so its result is passed in as the `sz` argument.
  A completed write is recorded as the value encoded; a failed write leaves
  the target file `torn`, because `open(..., "wb")` truncates the file
  before the write and the source does not write-to-temp-then-rename.
* `set_AppData_path` (lines 98-149): the OS-specific path strings are not
  claim-relevant; the directory bootstrap logic (lines 129-149) is modelled
  over the three environment facts it branches on.
-/

namespace FinancePro

/-- One financial transaction (`class Expense(msgspec.Struct)`, lines 15-26).
`tags: set[str] | None = set()`, the three trailing fields optional. -/
structure Expense where
  amount : Rat
  name : String
  category : String
  tags : Option (Finset String)
  date_time : Option Int
  description : Option String
  notes : Option String
deriving DecidableEq

/-- Set-typed `UserData` (`class UserData(msgspec.Struct)`, lines 29-35), the
shape produced by a typed decode and by the `UserData()` constructor: index
fields are Python sets. -/
structure UserDataS where
  expenses : List Expense
  names : Finset String
  categories : Finset String
  tags : Finset String
deriving DecidableEq

/-- `UserData()` with msgspec defaults: empty list and empty sets. -/
def emptyUserDataS : UserDataS :=
  { expenses := [], names := {}, categories := {}, tags := {} }

/-- `class UserConfig(msgspec.Struct)`, lines 38-43. -/
structure UserConfig where
  username : String
  launches : Int
  data_size : String
deriving DecidableEq

/-- Dynamic type of a value stored in an index field of the shared
boot/combined `UserData` object: a Python set, or (after `revert_data`
assigns a list comprehension, lines 246-262) a Python list. -/
inductive PyColl where
  | pset (s : Finset String)
  | plist (l : List String)
deriving DecidableEq

/-- Python `in` on either collection kind. -/
def PyColl.memb (x : String) : PyColl → Bool
  | .pset s => decide (x ∈ s)
  | .plist l => l.contains x

/-- The set of strings a `PyColl` holds (for content statements). -/
def PyColl.content : PyColl → Finset String
  | .pset s => s
  | .plist l => l.toFinset

/-- Python iteration over either collection kind.  CPython set iteration
order is arbitrary and nothing in the source relies on it, so set iteration
is modelled as a fixed deterministic enumeration (sorted); only the content
of the resulting list is ever stated about. -/
def PyColl.toPyList : PyColl → List String
  | .pset s => s.sort (fun a b => a ≤ b)
  | .plist l => l

/-- The shared `UserData` object that `boot_user_data` and
`combined_user_data` both reference after `load_data` line 208.  Its
`expenses` field is always a Python list; its index fields are dynamic. -/
structure UserDataD where
  expenses : List Expense
  names : PyColl
  categories : PyColl
  tags : PyColl
deriving DecidableEq

/-- View a freshly decoded set-typed `UserData` as the shared object. -/
def UserDataS.toDyn (d : UserDataS) : UserDataD :=
  { expenses := d.expenses, names := .pset d.names,
    categories := .pset d.categories, tags := .pset d.tags }

/-- In-memory state of a `DataManager` after construction: the shared
boot/combined object, the staging `new_user_data` object, and
`current_user_config` (which aliases `boot_user_config`, line 215). -/
structure Sess where
  shared : UserDataD
  newD : UserDataS
  config : UserConfig
deriving DecidableEq

/-- Reading `self.boot_user_data`: the shared object (aliased at line 208). -/
def bootUserData (st : Sess) : UserDataD := st.shared

/-- Reading `self.combined_user_data`: the same shared object. -/
def combinedUserData (st : Sess) : UserDataD := st.shared

/-- Python exceptions the embedded operations can propagate. -/
inductive PyError where
  | typeError
  | attributeError
  | osError
deriving DecidableEq

-- `DataManager.add_expense` (lines 267-288) is embedded in source statement
-- order, returning the state as mutated up to the first raised exception
-- (if any).  The body of `add_expense` is split at its two raise-capable index updates;
-- `addCatDone` and `addNameDone` are the continuations after the `category`
-- and `name` updates respectively, taking the mutated `new_user_data` and
-- shared object so far.

/-- Tail of `add_expense` from source line 286: `new_tags = set(expense.tags)
- combined.tags` (a `TypeError` when `tags is None`, else a `TypeError` when
the shared `tags` is a list), then `new.tags.update(new_tags)` and
`combined.tags.update(new_tags)`. -/
def addCatDone (cfg : UserConfig) (nd : UserDataS) (sh : UserDataD)
    (e : Expense) : Sess × Option PyError :=
  match e.tags with
  | none => ({ shared := sh, newD := nd, config := cfg }, some .typeError)
  | some ts =>
    match sh.tags with
    | .plist _ => ({ shared := sh, newD := nd, config := cfg }, some .typeError)
    | .pset ct =>
        let newTags := ts \ ct
        ({ shared := { sh with tags := .pset (ct ∪ newTags) },
           newD := { nd with tags := nd.tags ∪ newTags },
           config := cfg }, none)

/-- Tail of `add_expense` from source line 283: the `category` index update
(`new.categories.add` on a set never raises; `combined.categories.add` is an
`AttributeError` when the shared field holds a list). -/
def addNameDone (cfg : UserConfig) (nd : UserDataS) (sh : UserDataD)
    (e : Expense) : Sess × Option PyError :=
  if PyColl.memb e.category sh.categories then
    addCatDone cfg nd sh e
  else
    let nd := { nd with categories := insert e.category nd.categories }
    match sh.categories with
    | .pset s =>
        addCatDone cfg nd { sh with categories := .pset (insert e.category s) } e
    | .plist _ => ({ shared := sh, newD := nd, config := cfg },
                   some .attributeError)

/-- `DataManager.add_expense` (lines 267-288), in source statement order:
the two appends, then the `name` index update (same raise analysis as the
`category` one), then `addNameDone`. -/
def addExpense (st : Sess) (e : Expense) : Sess × Option PyError :=
  let nd := { st.newD with expenses := st.newD.expenses ++ [e] }
  let sh := { st.shared with expenses := st.shared.expenses ++ [e] }
  if PyColl.memb e.name sh.names then
    addNameDone st.config nd sh e
  else
    let nd := { nd with names := insert e.name nd.names }
    match sh.names with
    | .pset s => addNameDone st.config nd { sh with names := .pset (insert e.name s) } e
    | .plist _ => ({ shared := sh, newD := nd, config := st.config },
                   some .attributeError)

/-- A sequence of `add_expense` calls (each call's state mutation is kept
whether or not the call raised, as in Python, where the mutation applied
before a raise persists). -/
def addMany (st : Sess) (es : List Expense) : Sess :=
  es.foldl (fun s e => (addExpense s e).1) st

/-- The session state right after `DataManager.__init__` finishes on a
successful load: `boot_user_data` decoded from `data.json`,
`combined_user_data` aliased to it (line 208), `current_user_config` aliased
to the decoded config with `launches` incremented in memory (lines 215-216),
and `new_user_data = UserData()` (line 96). -/
def loadedState (boot : UserDataS) (cfg : UserConfig) : Sess :=
  { shared := boot.toDyn,
    newD := emptyUserDataS,
    config := { cfg with launches := cfg.launches + 1 } }

/-- `DataManager.revert_data` (lines 236-265).  The four field assignments on
the shared object replace `expenses` with a filtered list, and replace each
index field with a *list* comprehension over the old collection, keeping
elements not in the corresponding `new_user_data` set; then
`new_user_data = UserData()`.  No statement touches a file. -/
def revertData (st : Sess) : Sess :=
  let nd := st.newD
  let sh := st.shared
  let sh := { sh with
    expenses := sh.expenses.filter (fun e => !decide (e ∈ nd.expenses)) }
  let sh := { sh with
    names := .plist (sh.names.toPyList.filter (fun n => !decide (n ∈ nd.names))) }
  let sh := { sh with
    categories :=
      .plist (sh.categories.toPyList.filter (fun c => !decide (c ∈ nd.categories))) }
  let sh := { sh with
    tags := .plist (sh.tags.toPyList.filter (fun t => !decide (t ∈ nd.tags))) }
  { st with shared := sh, newD := emptyUserDataS }

/-- Contents of one on-disk file: either a well-formed encoding of a value
(the codec is injective on these shapes, so value equality of the model
tracks byte equality of `msgspec.json.encode` output), or `torn` — the file
as left by an `open(..., "wb")` that truncated it and a write that then
failed partway, i.e. truncated or partially written bytes that no longer
decode to the intended value. -/
inductive FileContent (α : Type) where
  | value (v : α)
  | torn
deriving DecidableEq

/-- On-disk state of the two per-user files. -/
structure Disk where
  dataFile : FileContent UserDataD
  configFile : FileContent UserConfig
deriving DecidableEq

/-- One completed file write performed by `save_data`. -/
inductive WriteEvent where
  | dataWrite (v : UserDataD)
  | configWrite (v : UserConfig)
deriving DecidableEq

/-- Result of a `save_data` call: final in-memory state, final disk, the
writes that completed, and the propagated exception if a write failed. -/
structure SaveResult where
  st : Sess
  disk : Disk
  writes : List WriteEvent
  err : Option PyError
deriving DecidableEq

/-- `DataManager.save_data` (lines 218-234), in source statement order:

1. `open(self.user_data_file, "wb")` truncates `data.json`, then the write
   puts `encode(combined_user_data)` there — modelled with the injected
   success flag `dataOk`; on failure an `OSError`-like exception propagates,
   nothing further runs, and the data file is left `torn` (truncated by the
   `"wb"` open, partially written at best — the source does no
   write-to-temp-then-rename);
2. `self.new_user_data = UserData()` (line 228 — before the config write);
3. `self.current_user_config.data_size = self.get_user_data_size()` — the
   size string read from the filesystem is the input `sz`;
4. same `open(..., "wb")`-then-write for `config.json` — success flag
   `configOk`, a failure leaving the config file `torn`.

The method has no `return` statement: it returns `None` in Python, hence no
success indicator in the result beyond `err`. -/
def saveData (dataOk configOk : Bool) (sz : String) (st : Sess) (disk : Disk) :
    SaveResult :=
  if !dataOk then
    { st := st, disk := { disk with dataFile := .torn }, writes := [],
      err := some .osError }
  else
    let disk := { disk with dataFile := .value st.shared }
    let st := { st with newD := emptyUserDataS }
    let st := { st with config := { st.config with data_size := sz } }
    if !configOk then
      { st := st, disk := { disk with configFile := .torn },
        writes := [.dataWrite st.shared], err := some .osError }
    else
      { st := st, disk := { disk with configFile := .value st.config },
        writes := [.dataWrite st.shared, .configWrite st.config],
        err := none }

/-- How constructing a `DataManager` for an already-existing user ends, as a
function of how the typed decode of `data.json` went.  The source defines no
`CorruptDataError` class anywhere; the constructor is included in the
vocabulary so the spec's contract can be stated and compared. -/
inductive LoadOutcome where
  | ok (st : Sess)
  | raisesAttributeError
  | raisesCorruptDataError
deriving DecidableEq

/-- `DataManager.load_data` (lines 183-216) composed with the tail of
`__init__` (line 96, `new_user_data = UserData()`), as a function of the
typed decode result of `data.json` and the decoded `config.json` value.

On `msgspec.ValidationError` the `except` block (lines 193-205) only logs —
`re.search(...).group(1)` either extracts the field name or itself raises
`AttributeError` on a non-matching message inside the handler — and the
handler ends without `raise`, leaving `self.boot_user_data` unassigned; the
next statement, line 208 `self.combined_user_data = self.boot_user_data`,
then raises `AttributeError` on the fresh object.  Either way the exception
that propagates is `AttributeError`, never a corruption-specific one, and no
state is produced.  On success, line 208 aliases the two attributes and
lines 215-216 alias the config and bump `launches` in memory. -/
def loadData (dataDecode : Except String UserDataS) (cfg : UserConfig) :
    LoadOutcome :=
  match dataDecode with
  | .error _ => .raisesAttributeError
  | .ok boot => .ok (loadedState boot cfg)

/-- How `set_AppData_path` resolves the user, per its return value and the
`create_new_user` call it triggers in `__init__` (line 89-91):
`userExists` = returned `True` (no bootstrap), `userNew` = returned `False`
(`create_new_user` runs), `raisesPersistenceError` = in the vocabulary for
comparison with the spec's §7 taxonomy; the source never produces it here. -/
inductive ResolveOutcome where
  | userExists
  | userNew
  | raisesPersistenceError
deriving DecidableEq

/-- The directory-bootstrap logic of `set_AppData_path` (lines 129-149) over
the three environment facts it branches on: whether the per-user directory
already exists at the `os.path.isdir` check, whether `os.makedirs` raises
`FileExistsError` (a concurrent creation race), and whether `data.json` is
present when probed inside the handler.

* directory present: return `True` (line 149);
* absent, `makedirs` succeeds: return `False` (line 146);
* absent, `makedirs` races: log; if the data file exists return `True`
  (line 143), otherwise fall through to `return False` (line 146). -/
def setAppDataPath (dirExists racedCreate dataFileExists : Bool) :
    ResolveOutcome :=
  if dirExists then .userExists
  else if racedCreate then
    if dataFileExists then .userExists else .userNew
  else .userNew

/-! ### Concrete fixtures (the spec's Scenario B data and variations) -/

/-- A decoded `config.json` value. -/
def cfg0 : UserConfig := { username := "alice", launches := 3, data_size := "1.2 KiB" }

/-- Scenario B's persisted expense (amount kept integral so that kernel
evaluation of `Rat` equality stays in literal arithmetic). -/
def coffee : Expense :=
  { amount := 12, name := "Coffee", category := "Food",
    tags := some {"daily"}, date_time := none, description := none,
    notes := none }

/-- Scenario C's freshly added expense. -/
def tea : Expense :=
  { amount := 5, name := "Tea", category := "Food", tags := some {"daily"},
    date_time := none, description := none, notes := none }

/-- An expense whose optional `tags` field is `None`. -/
def gymNoTags : Expense :=
  { amount := 3, name := "Gym", category := "Health", tags := none,
    date_time := none, description := none, notes := none }

/-- An expense with a brand-new name and category. -/
def gym : Expense :=
  { amount := 3, name := "Gym", category := "Health", tags := some {},
    date_time := none, description := none, notes := none }

/-- Scenario B's boot snapshot: one persisted expense with its indices. -/
def bootB : UserDataS :=
  { expenses := [coffee], names := {"Coffee"}, categories := {"Food"},
    tags := {"daily"} }

/-- A boot snapshot already holding `tea`. -/
def bootT : UserDataS :=
  { expenses := [tea], names := {"Tea"}, categories := {"Food"},
    tags := {"daily"} }

/-- The on-disk values matching Scenario B at boot. -/
def disk0 : Disk := { dataFile := .value bootB.toDyn, configFile := .value cfg0 }

/-! ### Helper lemmas -/

/-- `add_expense` on a state whose shared index fields are still sets,
given an expense whose `tags` is a set: the full effect, and no exception.
(`insert a s = s` when `a ∈ s`, so the inserted form covers both branches of
each `not in` test; the staged diff only records genuinely new entries.) -/
theorem addExpense_pset (st : Sess) (e : Expense) (ns cs tg ts : Finset String)
    (hn : st.shared.names = .pset ns) (hc : st.shared.categories = .pset cs)
    (ht : st.shared.tags = .pset tg) (hts : e.tags = some ts) :
    addExpense st e =
      ({ shared :=
           { expenses := st.shared.expenses ++ [e],
             names := .pset (insert e.name ns),
             categories := .pset (insert e.category cs),
             tags := .pset (tg ∪ ts \ tg) },
         newD :=
           { expenses := st.newD.expenses ++ [e],
             names :=
               if e.name ∈ ns then st.newD.names else insert e.name st.newD.names,
             categories :=
               if e.category ∈ cs then st.newD.categories
               else insert e.category st.newD.categories,
             tags := st.newD.tags ∪ ts \ tg },
         config := st.config }, none) := by
  obtain ⟨⟨exps, nms, cts, tgs⟩, nd, cfg⟩ := st
  simp only at hn hc ht
  subst hn hc ht
  by_cases h1 : e.name ∈ ns <;> by_cases h2 : e.category ∈ cs <;>
    simp [addExpense, addNameDone, addCatDone, PyColl.memb, hts, h1, h2,
      Finset.insert_eq_self.mpr]

/-- `add_expense` on a state whose shared `names`/`categories` are sets,
given an expense with `tags = None`: every statement up to and including the
two `combined` index `.add`s runs, then `set(expense.tags)` raises
`TypeError`, leaving both `tags` fields untouched. -/
theorem addExpense_noneTags (st : Sess) (e : Expense) (ns cs : Finset String)
    (hn : st.shared.names = .pset ns) (hc : st.shared.categories = .pset cs)
    (hts : e.tags = none) :
    addExpense st e =
      ({ shared :=
           { expenses := st.shared.expenses ++ [e],
             names := .pset (insert e.name ns),
             categories := .pset (insert e.category cs),
             tags := st.shared.tags },
         newD :=
           { expenses := st.newD.expenses ++ [e],
             names :=
               if e.name ∈ ns then st.newD.names else insert e.name st.newD.names,
             categories :=
               if e.category ∈ cs then st.newD.categories
               else insert e.category st.newD.categories,
             tags := st.newD.tags },
         config := st.config }, some .typeError) := by
  obtain ⟨⟨exps, nms, cts, tgs⟩, nd, cfg⟩ := st
  simp only at hn hc
  subst hn hc
  by_cases h1 : e.name ∈ ns <;> by_cases h2 : e.category ∈ cs <;>
    simp [addExpense, addNameDone, addCatDone, PyColl.memb, hts, h1, h2,
      Finset.insert_eq_self.mpr]

/-- The invariant tying the three views together through a no-save/no-revert
session: the shared boot/combined object holds the boot snapshot's expenses
followed by the staged expenses, and each shared index field is the set
union of the snapshot's and the staged index. -/
def SessInv (boot : UserDataS) (st : Sess) : Prop :=
  st.shared.expenses = boot.expenses ++ st.newD.expenses ∧
  st.shared.names = .pset (boot.names ∪ st.newD.names) ∧
  st.shared.categories = .pset (boot.categories ∪ st.newD.categories) ∧
  st.shared.tags = .pset (boot.tags ∪ st.newD.tags)

/-- `SessInv` holds right after construction (`combined := boot`,
`new := UserData()`). -/
theorem sessInv_loadedState (boot : UserDataS) (cfg : UserConfig) :
    SessInv boot (loadedState boot cfg) := by
  simp [SessInv, loadedState, emptyUserDataS, UserDataS.toDyn]

/-- One `add_expense` call preserves `SessInv`, whether or not it raises. -/
theorem sessInv_addExpense (boot : UserDataS) (st : Sess) (e : Expense)
    (h : SessInv boot st) : SessInv boot (addExpense st e).1 := by
  obtain ⟨hE, hN, hC, hT⟩ := h
  cases hts : e.tags with
  | some ts =>
    rw [addExpense_pset st e _ _ _ ts hN hC hT hts]
    refine ⟨by simp [hE], ?_, ?_, ?_⟩
    · by_cases h1 : e.name ∈ boot.names ∪ st.newD.names
      · simp [h1, Finset.insert_eq_self.mpr h1]
      · simp [h1, Finset.union_insert]
    · by_cases h2 : e.category ∈ boot.categories ∪ st.newD.categories
      · simp [h2, Finset.insert_eq_self.mpr h2]
      · simp [h2, Finset.union_insert]
    · simp only [Finset.union_assoc]
  | none =>
    rw [addExpense_noneTags st e _ _ hN hC hts]
    refine ⟨by simp [hE], ?_, ?_, by simpa using hT⟩
    · by_cases h1 : e.name ∈ boot.names ∪ st.newD.names
      · simp [h1, Finset.insert_eq_self.mpr h1]
      · simp [h1, Finset.union_insert]
    · by_cases h2 : e.category ∈ boot.categories ∪ st.newD.categories
      · simp [h2, Finset.insert_eq_self.mpr h2]
      · simp [h2, Finset.union_insert]

/-- `SessInv` is preserved by any `add_expense` sequence. -/
theorem sessInv_addMany (boot : UserDataS) (st : Sess) (es : List Expense)
    (h : SessInv boot st) : SessInv boot (addMany st es) := by
  induction es generalizing st with
  | nil => simpa [addMany] using h
  | cons e es ih =>
      simpa [addMany] using ih _ (sessInv_addExpense boot st e h)

/-- The staged diff is fresh relative to the boot snapshot: no staged
expense is value-equal to a boot expense, and each staged index set is
disjoint from the snapshot's.  (For the index sets this holds of *every*
session, because `add_expense` only stages an entry after the `not in
combined` test and `combined ⊇ boot`; for the expense list it needs the
boot-collision-freedom hypothesis carried by the callers.) -/
def StagedFresh (boot : UserDataS) (st : Sess) : Prop :=
  (∀ x ∈ st.newD.expenses, x ∉ boot.expenses) ∧
  Disjoint st.newD.names boot.names ∧
  Disjoint st.newD.categories boot.categories ∧
  Disjoint st.newD.tags boot.tags

/-- `StagedFresh` holds right after construction (empty staged diff). -/
theorem stagedFresh_loadedState (boot : UserDataS) (cfg : UserConfig) :
    StagedFresh boot (loadedState boot cfg) := by
  simp [StagedFresh, loadedState, emptyUserDataS]

/-- `add_expense` with an expense not value-equal to any boot expense
preserves `StagedFresh` (given `SessInv`), whether or not it raises. -/
theorem stagedFresh_addExpense (boot : UserDataS) (st : Sess) (e : Expense)
    (hI : SessInv boot st) (hF : StagedFresh boot st)
    (he : e ∉ boot.expenses) : StagedFresh boot (addExpense st e).1 := by
  obtain ⟨hE, hN, hC, hT⟩ := hI
  obtain ⟨fE, fN, fC, fT⟩ := hF
  have names_ok :
      Disjoint (if e.name ∈ boot.names ∪ st.newD.names then st.newD.names
        else insert e.name st.newD.names) boot.names := by
    by_cases h1 : e.name ∈ boot.names ∪ st.newD.names
    · simpa [h1] using fN
    · have : e.name ∉ boot.names := fun hx => h1 (Finset.mem_union_left _ hx)
      simpa [h1, Finset.disjoint_insert_left, this] using fN
  have cats_ok :
      Disjoint (if e.category ∈ boot.categories ∪ st.newD.categories then
        st.newD.categories else insert e.category st.newD.categories)
        boot.categories := by
    by_cases h2 : e.category ∈ boot.categories ∪ st.newD.categories
    · simpa [h2] using fC
    · have : e.category ∉ boot.categories := fun hx =>
        h2 (Finset.mem_union_left _ hx)
      simpa [h2, Finset.disjoint_insert_left, this] using fC
  have exps_ok : ∀ x ∈ st.newD.expenses ++ [e], x ∉ boot.expenses := by
    intro x hx
    rcases List.mem_append.mp hx with hx | hx
    · exact fE x hx
    · simpa using List.mem_singleton.mp hx ▸ he
  cases hts : e.tags with
  | some ts =>
    rw [addExpense_pset st e _ _ _ ts hN hC hT hts]
    refine ⟨exps_ok, names_ok, cats_ok, ?_⟩
    refine Finset.disjoint_union_left.mpr ⟨fT, ?_⟩
    refine Finset.disjoint_left.mpr fun x hx hb => ?_
    exact (Finset.mem_sdiff.mp hx).2 (Finset.mem_union_left _ hb)
  | none =>
    rw [addExpense_noneTags st e _ _ hN hC hts]
    exact ⟨exps_ok, names_ok, cats_ok, fT⟩

/-- Both invariants are preserved by any `add_expense` sequence whose
expenses avoid the boot snapshot's expenses by value. -/
theorem invariants_addMany (boot : UserDataS) (st : Sess) (es : List Expense)
    (hI : SessInv boot st) (hF : StagedFresh boot st)
    (hes : ∀ e ∈ es, e ∉ boot.expenses) :
    SessInv boot (addMany st es) ∧ StagedFresh boot (addMany st es) := by
  induction es generalizing st with
  | nil => exact ⟨by simpa [addMany] using hI, by simpa [addMany] using hF⟩
  | cons e es ih =>
      have he : e ∉ boot.expenses := hes e (List.mem_cons_self e es)
      have hI1 := sessInv_addExpense boot st e hI
      have hF1 := stagedFresh_addExpense boot st e hI hF he
      have hes1 : ∀ x ∈ es, x ∉ boot.expenses := fun x hx =>
        hes x (List.mem_cons_of_mem e hx)
      simpa [addMany] using ih _ hI1 hF1 hes1

/-- `revert_data` on any state satisfying both invariants restores the boot
snapshot in content: the expense list literally, each index field as a list
whose content is the snapshot's set, with the staged diff reset. -/
theorem revertData_restores (boot : UserDataS) (st : Sess)
    (hI : SessInv boot st) (hF : StagedFresh boot st) :
    (revertData st).shared.expenses = boot.expenses ∧
    (revertData st).shared.names.content = boot.names ∧
    (revertData st).shared.categories.content = boot.categories ∧
    (revertData st).shared.tags.content = boot.tags ∧
    (revertData st).newD = emptyUserDataS := by
  obtain ⟨hE, hN, hC, hT⟩ := hI
  obtain ⟨fE, fN, fC, fT⟩ := hF
  refine ⟨?_, ?_, ?_, ?_, rfl⟩
  · rw [revertData]
    simp only [hE, List.filter_append]
    have h1 : (boot.expenses.filter fun e => !decide (e ∈ st.newD.expenses))
        = boot.expenses := by
      refine List.filter_eq_self.mpr fun b hb => ?_
      simp only [Bool.not_eq_true', decide_eq_false_iff_not]
      exact fun hmem => fE b hmem hb
    have h2 : (st.newD.expenses.filter fun e => !decide (e ∈ st.newD.expenses))
        = [] := by
      simp [List.filter_eq_nil_iff]
    simp [h1, h2]
  · rw [revertData]
    simp only [hN, PyColl.toPyList, PyColl.content]
    ext x
    simp only [List.mem_toFinset, List.mem_filter, Finset.mem_sort,
      Finset.mem_union, Bool.not_eq_true', decide_eq_false_iff_not]
    constructor
    · rintro ⟨hx | hx, hnx⟩
      · exact hx
      · exact absurd hx hnx
    · intro hx
      exact ⟨Or.inl hx, fun hn => Finset.disjoint_right.mp fN hx hn⟩
  · rw [revertData]
    simp only [hC, PyColl.toPyList, PyColl.content]
    ext x
    simp only [List.mem_toFinset, List.mem_filter, Finset.mem_sort,
      Finset.mem_union, Bool.not_eq_true', decide_eq_false_iff_not]
    constructor
    · rintro ⟨hx | hx, hnx⟩
      · exact hx
      · exact absurd hx hnx
    · intro hx
      exact ⟨Or.inl hx, fun hn => Finset.disjoint_right.mp fC hx hn⟩
  · rw [revertData]
    simp only [hT, PyColl.toPyList, PyColl.content]
    ext x
    simp only [List.mem_toFinset, List.mem_filter, Finset.mem_sort,
      Finset.mem_union, Bool.not_eq_true', decide_eq_false_iff_not]
    constructor
    · rintro ⟨hx | hx, hnx⟩
      · exact hx
      · exact absurd hx hnx
    · intro hx
      exact ⟨Or.inl hx, fun hn => Finset.disjoint_right.mp fT hx hn⟩

/-- Through the tag-update tail of `add_expense`, whatever the dynamic state:
`names` and `categories` are untouched and the `tags` content never
shrinks. -/
theorem addCatDone_mono (cfg : UserConfig) (nd : UserDataS) (sh : UserDataD)
    (e : Expense) :
    (addCatDone cfg nd sh e).1.shared.names = sh.names ∧
    (addCatDone cfg nd sh e).1.shared.categories = sh.categories ∧
    sh.tags.content ⊆ (addCatDone cfg nd sh e).1.shared.tags.content := by
  cases hts : e.tags with
  | none => simp [addCatDone, hts]
  | some ts =>
    cases htg : sh.tags with
    | plist l => simp [addCatDone, hts, htg]
    | pset ct =>
        refine ⟨by simp [addCatDone, hts, htg], by simp [addCatDone, hts, htg], ?_⟩
        simp only [addCatDone, hts, htg, PyColl.content]
        exact Finset.subset_union_left

/-- Through the category-then-tags tail of `add_expense`: `names` is
untouched and the `categories`/`tags` contents never shrink. -/
theorem addNameDone_mono (cfg : UserConfig) (nd : UserDataS) (sh : UserDataD)
    (e : Expense) :
    (addNameDone cfg nd sh e).1.shared.names = sh.names ∧
    sh.categories.content ⊆ (addNameDone cfg nd sh e).1.shared.categories.content ∧
    sh.tags.content ⊆ (addNameDone cfg nd sh e).1.shared.tags.content := by
  obtain ⟨shE, shN, shC, shT⟩ := sh
  obtain ⟨ndE, ndN, ndC, ndT⟩ := nd
  by_cases hm : PyColl.memb e.category shC
  · have h := addCatDone_mono cfg ⟨ndE, ndN, ndC, ndT⟩ ⟨shE, shN, shC, shT⟩ e
    refine ⟨?_, ?_, ?_⟩
    · simp only [addNameDone, hm, if_true]
      exact h.1
    · simp only [addNameDone, hm, if_true]
      exact le_of_eq (congrArg PyColl.content h.2.1).symm
    · simp only [addNameDone, hm, if_true]
      exact h.2.2
  · cases shC with
    | plist l => simp [addNameDone, hm]
    | pset s =>
        have h := addCatDone_mono cfg ⟨ndE, ndN, insert e.category ndC, ndT⟩
          ⟨shE, shN, .pset (insert e.category s), shT⟩ e
        refine ⟨?_, ?_, ?_⟩
        · simp only [addNameDone, hm, if_false]
          exact h.1
        · simp only [addNameDone, hm, if_false]
          refine subset_trans ?_ (le_of_eq (congrArg PyColl.content h.2.1).symm)
          simp only [PyColl.content]
          exact Finset.subset_insert _ _
        · simp only [addNameDone, hm, if_false]
          exact h.2.2

/-- One `add_expense` call, from *any* dynamic state (set- or list-typed
index fields, i.e. also after a revert) and with *any* expense (also
`tags = None`): the content of each shared index field never shrinks,
whether or not the call raises. -/
theorem addExpense_mono (st : Sess) (e : Expense) :
    st.shared.names.content ⊆ (addExpense st e).1.shared.names.content ∧
    st.shared.categories.content ⊆ (addExpense st e).1.shared.categories.content ∧
    st.shared.tags.content ⊆ (addExpense st e).1.shared.tags.content := by
  obtain ⟨⟨shE, shN, shC, shT⟩, ⟨ndE, ndN, ndC, ndT⟩, cfg⟩ := st
  by_cases hm : PyColl.memb e.name shN
  · have h := addNameDone_mono cfg ⟨ndE ++ [e], ndN, ndC, ndT⟩
      ⟨shE ++ [e], shN, shC, shT⟩ e
    refine ⟨?_, ?_, ?_⟩
    · simp only [addExpense, hm, if_true]
      exact le_of_eq (congrArg PyColl.content h.1).symm
    · simp only [addExpense, hm, if_true]
      exact h.2.1
    · simp only [addExpense, hm, if_true]
      exact h.2.2
  · cases shN with
    | plist l => simp [addExpense, hm]
    | pset s =>
        have h := addNameDone_mono cfg ⟨ndE ++ [e], insert e.name ndN, ndC, ndT⟩
          ⟨shE ++ [e], .pset (insert e.name s), shC, shT⟩ e
        refine ⟨?_, ?_, ?_⟩
        · simp only [addExpense, hm, if_false]
          refine subset_trans ?_ (le_of_eq (congrArg PyColl.content h.1).symm)
          simp only [PyColl.content]
          exact Finset.subset_insert _ _
        · simp only [addExpense, hm, if_false]
          exact h.2.1
        · simp only [addExpense, hm, if_false]
          exact h.2.2

/-! ### Claim theorems -/

/-- Claim C1: for every loaded store and every sequence of `add_expense`
calls with no intervening save or revert, the combined view equals the boot
snapshot extended by the staging layer: `combined_data.expenses` is the boot
snapshot's expenses concatenated with `new_data.expenses` in order, and each
combined index's content is the union of the snapshot's and the staged index
set. -/
theorem C1_combined_is_boot_extended_by_staging (boot : UserDataS)
    (cfg : UserConfig) (es : List Expense) :
    (combinedUserData (addMany (loadedState boot cfg) es)).expenses
      = boot.expenses ++ (addMany (loadedState boot cfg) es).newD.expenses ∧
    (combinedUserData (addMany (loadedState boot cfg) es)).names.content
      = boot.names ∪ (addMany (loadedState boot cfg) es).newD.names ∧
    (combinedUserData (addMany (loadedState boot cfg) es)).categories.content
      = boot.categories ∪ (addMany (loadedState boot cfg) es).newD.categories ∧
    (combinedUserData (addMany (loadedState boot cfg) es)).tags.content
      = boot.tags ∪ (addMany (loadedState boot cfg) es).newD.tags := by
  obtain ⟨hE, hN, hC, hT⟩ :=
    sessInv_addMany boot _ es (sessInv_loadedState boot cfg)
  refine ⟨hE, ?_, ?_, ?_⟩
  · simp only [combinedUserData, hN, PyColl.content]
  · simp only [combinedUserData, hC, PyColl.content]
  · simp only [combinedUserData, hT, PyColl.content]

/-- Claim C2, counterexample: on a failed schema validation the constructor
propagates `AttributeError` (the swallowed `ValidationError` leaves
`boot_user_data` unset), not a `CorruptDataError` — no such exception class
exists in the source. -/
theorem C2_counterexample_attribute_error_not_corrupt :
    loadData (Except.error "Expected str - at names") cfg0
      ≠ LoadOutcome.raisesCorruptDataError ∧
    loadData (Except.error "Expected str - at names") cfg0
      = LoadOutcome.raisesAttributeError := by decide

/-- Claim C2 as amended: for every `data.json` whose contents fail schema
validation, `load` never yields an empty or partially populated `UserData` —
it always ends in a propagated `AttributeError` (rather than the spec's
`CorruptDataError`). -/
theorem C2_corrupt_load_never_yields_data (m : String) (cfg : UserConfig) :
    loadData (Except.error m) cfg = LoadOutcome.raisesAttributeError := rfl

/-- Claim C3, counterexample: starting from a state whose staging layer is
already empty (right after a successful save), a second `save_data` call
still performs writes instead of reporting "nothing to save". -/
theorem C3_counterexample_second_save_still_writes :
    (saveData true true "2.0 KiB" (addMany (loadedState bootB cfg0) [tea])
        disk0).st.newD = emptyUserDataS ∧
    (saveData true true "2.0 KiB"
        (saveData true true "2.0 KiB" (addMany (loadedState bootB cfg0) [tea])
          disk0).st
        (saveData true true "2.0 KiB" (addMany (loadedState bootB cfg0) [tea])
          disk0).disk).writes ≠ [] := by decide

/-- Claim C3 as amended: `save_data` returns no success indicator and writes
unconditionally — every successful call performs exactly the data-file write
followed by the config-file write and clears the staging layer, and a second
save immediately after a successful one writes again, with the on-disk data
value unchanged between the two calls. -/
theorem C3_save_returns_nothing_and_always_writes (st : Sess) (disk : Disk)
    (sz sz' : String) :
    (saveData true true sz st disk).writes
      = [WriteEvent.dataWrite st.shared,
         WriteEvent.configWrite (saveData true true sz st disk).st.config] ∧
    (saveData true true sz st disk).st.newD = emptyUserDataS ∧
    (saveData true true sz' (saveData true true sz st disk).st
        (saveData true true sz st disk).disk).writes ≠ [] ∧
    (saveData true true sz' (saveData true true sz st disk).st
        (saveData true true sz st disk).disk).disk.dataFile
      = (saveData true true sz st disk).disk.dataFile := by
  simp [saveData]

/-- Claim C4, counterexample: with staged data present, a failure of the
*second* write (config file) still leaves `new_user_data` reset — the
staging layer is lost even though a write failed. -/
theorem C4_counterexample_config_write_failure_clears_staging :
    (addMany (loadedState bootB cfg0) [tea]).newD ≠ emptyUserDataS ∧
    (saveData true false "9 B" (addMany (loadedState bootB cfg0) [tea])
        disk0).st.newD = emptyUserDataS := by decide

/-- Claim C4 as amended: a failure of the *first* write (data file) leaves
the whole in-memory state untouched — `new_data` still holds the same staged
expenses and index entries, so the session remains resumable in memory — but
clearing `new_user_data` happens right after the data-file write and
*before* the config-file write, so a config-write failure finds the staging
layer already reset: the clear is not the last step and is not gated on both
writes succeeding. -/
theorem C4_staging_cleared_between_writes (st : Sess) (disk : Disk)
    (sz : String) (b : Bool) :
    (saveData false b sz st disk).st = st ∧
    (saveData true false sz st disk).st.newD = emptyUserDataS := by
  simp [saveData]

/-- Claim C5, counterexample: a session adding the single expense `tea`
(trivially pairwise distinct) whose value equals a boot expense: `revert`
subtracts by value and also removes the boot copy, so the combined expenses
do not return to the boot content. -/
theorem C5_counterexample_added_dup_of_boot :
    [tea].Nodup ∧
    (combinedUserData (revertData (addMany (loadedState bootT cfg0) [tea]))).expenses
      ≠ bootT.expenses := by decide

/-- Claim C5 as amended: for every session whose added expenses are pairwise
distinct by value *and none of them value-equal to a boot expense*,
`revert_data` leaves the combined view equal in content to the boot snapshot
(same expense list, same index contents), and resets `new_user_data` to
empty.  (`revert_data` performs no file operation: its embedding does not
touch the `Disk` state at all.) -/
theorem C5_revert_restores_boot_content (boot : UserDataS) (cfg : UserConfig)
    (es : List Expense) (_hnd : es.Nodup)
    (hfresh : ∀ e ∈ es, e ∉ boot.expenses) :
    (combinedUserData (revertData (addMany (loadedState boot cfg) es))).expenses
      = boot.expenses ∧
    (combinedUserData (revertData (addMany (loadedState boot cfg) es))).names.content
      = boot.names ∧
    (combinedUserData (revertData (addMany (loadedState boot cfg) es))).categories.content
      = boot.categories ∧
    (combinedUserData (revertData (addMany (loadedState boot cfg) es))).tags.content
      = boot.tags ∧
    (revertData (addMany (loadedState boot cfg) es)).newD = emptyUserDataS := by
  obtain ⟨hI, hF⟩ := invariants_addMany boot _ es (sessInv_loadedState boot cfg)
    (stagedFresh_loadedState boot cfg) hfresh
  exact revertData_restores boot _ hI hF

/-- Claim C5 as amended, witness at Scenario B/C data: boot holds `coffee`,
the session adds `tea`. -/
theorem C5_revert_restores_boot_content_witness :
    ([tea].Nodup ∧ (∀ e ∈ [tea], e ∉ bootB.expenses)) ∧
    ((combinedUserData (revertData (addMany (loadedState bootB cfg0) [tea]))).expenses
        = bootB.expenses ∧
     (combinedUserData (revertData (addMany (loadedState bootB cfg0) [tea]))).names.content
        = bootB.names ∧
     (combinedUserData (revertData (addMany (loadedState bootB cfg0) [tea]))).categories.content
        = bootB.categories ∧
     (combinedUserData (revertData (addMany (loadedState bootB cfg0) [tea]))).tags.content
        = bootB.tags ∧
     (revertData (addMany (loadedState bootB cfg0) [tea])).newD = emptyUserDataS) :=
  ⟨⟨by decide, by decide⟩,
   C5_revert_restores_boot_content bootB cfg0 [tea] (by decide) (by decide)⟩

/-- Claim C6, counterexample: after one `add_expense`, reading
`boot_user_data` shows the staged expense — the "snapshot" no longer equals
what was read from disk at session start, because line 208 aliased it to
`combined_user_data`. -/
theorem C6_counterexample_boot_snapshot_mutates :
    (bootUserData (addMany (loadedState bootB cfg0) [tea])).expenses
      ≠ bootB.expenses := by decide

/-- Claim C6 as amended: `boot_user_data` is not immutable after load — it
aliases `combined_user_data`, so after any `add_expense` sequence it equals
the combined view: the disk snapshot's expenses *concatenated with the
staged expenses*, not the snapshot alone. -/
theorem C6_boot_attribute_tracks_combined (boot : UserDataS)
    (cfg : UserConfig) (es : List Expense) :
    bootUserData (addMany (loadedState boot cfg) es)
      = combinedUserData (addMany (loadedState boot cfg) es) ∧
    (bootUserData (addMany (loadedState boot cfg) es)).expenses
      = boot.expenses ++ (addMany (loadedState boot cfg) es).newD.expenses :=
  ⟨rfl, (sessInv_addMany boot _ es (sessInv_loadedState boot cfg)).1⟩

/-- Claim C7, counterexample: `add_expense` *can* fail — on a freshly loaded
store, an expense whose `tags` field is `None` raises `TypeError` at
`set(expense.tags)`. -/
theorem C7_counterexample_add_raises_type_error :
    (addExpense (loadedState bootB cfg0) gymNoTags).2
      = some PyError.typeError := by decide

/-- Claim C7 as amended: `add_expense` is a pure in-memory mutation with no
I/O (its embedding touches no `Disk`), and it completes without an error
path provided the expense's `tags` field is a set (not `None`) and the
store's combined index fields are still sets (as in every state reached
without a revert); an expense with `tags = None`, or a post-revert
list-typed state, can raise. -/
theorem C7_add_expense_no_error_on_set_state (st : Sess) (e : Expense)
    (ns cs tg ts : Finset String)
    (hn : st.shared.names = .pset ns) (hc : st.shared.categories = .pset cs)
    (ht : st.shared.tags = .pset tg) (hts : e.tags = some ts) :
    (addExpense st e).2 = none := by
  rw [addExpense_pset st e ns cs tg ts hn hc ht hts]

/-- Claim C7 as amended, witness: adding `tea` to the freshly loaded
Scenario B store succeeds. -/
theorem C7_add_expense_no_error_witness :
    ((loadedState bootB cfg0).shared.names = PyColl.pset {"Coffee"} ∧
     (loadedState bootB cfg0).shared.categories = PyColl.pset {"Food"} ∧
     (loadedState bootB cfg0).shared.tags = PyColl.pset {"daily"} ∧
     tea.tags = some {"daily"}) ∧
    (addExpense (loadedState bootB cfg0) tea).2 = none :=
  ⟨⟨rfl, rfl, rfl, rfl⟩,
   C7_add_expense_no_error_on_set_state (loadedState bootB cfg0) tea
     {"Coffee"} {"Food"} {"daily"} {"daily"} rfl rfl rfl rfl⟩

/-- Claim C8, counterexample: when directory creation races and no data file
is found afterwards, the resolver reports a *new* user (bootstrap follows) —
it does not surface a `PersistenceError`. -/
theorem C8_counterexample_race_without_file_is_new_user :
    setAppDataPath false true false ≠ ResolveOutcome.raisesPersistenceError ∧
    setAppDataPath false true false = ResolveOutcome.userNew := by decide

/-- Claim C8 as amended: on a directory-creation race the resolver recovers
locally — with a data file present it reports the user as existing; with no
data file found it reports the user as new (a fresh user is bootstrapped);
no `PersistenceError` is raised in either case. -/
theorem C8_race_recovery (dataFileExists : Bool) :
    setAppDataPath false true dataFileExists
      = (if dataFileExists then ResolveOutcome.userExists
         else ResolveOutcome.userNew) := by
  cases dataFileExists <;> rfl

/-- Claim C9: across any single `add_expense` call, in any session state
(also post-revert) and for any expense (also `tags = None`), the content of
each combined index only grows, never shrinks. -/
theorem C9_combined_indices_monotone (st : Sess) (e : Expense) :
    (combinedUserData st).names.content
      ⊆ (combinedUserData (addExpense st e).1).names.content ∧
    (combinedUserData st).categories.content
      ⊆ (combinedUserData (addExpense st e).1).categories.content ∧
    (combinedUserData st).tags.content
      ⊆ (combinedUserData (addExpense st e).1).tags.content :=
  addExpense_mono st e

/-- Claim C10: revert's value-based subtraction reaches into the boot
snapshot: with `coffee` persisted at boot, adding one expense value-equal to
it and reverting removes *both* copies, leaving the combined expenses empty
— strictly fewer than at boot. -/
theorem C10_revert_removes_boot_copy :
    coffee ∈ bootB.expenses ∧
    (combinedUserData (revertData (addMany (loadedState bootB cfg0) [coffee]))).expenses
      = [] ∧
    (combinedUserData (revertData (addMany (loadedState bootB cfg0) [coffee]))).expenses.length
      < bootB.expenses.length := by decide

end FinancePro
